import Mathlib

/-!
Shallow embedding of the `array-of` repository: the `ArrayOf<T, Alloc>`
container (array_of.hpp, given as src/unnamed/part_000) and the
`CollectionOf<T, Alloc>` container (src/include/collection_of.hpp).

Modelling conventions:
* machine pointers are modelled as `Nat` identifiers, `0` standing for
  `nullptr`; allocator objects are modelled as `Nat` identities;
* the contiguous storage region of a live container is modelled as the
  `List` of the values it holds (for `CollectionOf`, `List (Option _)`,
  `none` marking a slot in which no object has been constructed yet);
* calls into the allocator and per-element lifetime operations are
  recorded as explicit event traces where a claim is about them;
* C++ undefined behaviour is modelled by `Option`-valued results
  (`none` = the run is undefined) or by an explicit `garbage`
  parameter standing for an indeterminate value read.
-/

/-- Events observable by the allocator / element type during lifetime
operations: a raw allocation of `n` slots, the construction of the element
in slot `i`, the destruction of the element in slot `i`, and a raw
deallocation of `n` slots. -/
inductive AllocEvent where
  | allocate : Nat → AllocEvent
  | constructElem : Nat → AllocEvent
  | destroyElem : Nat → AllocEvent
  | deallocate : Nat → AllocEvent
deriving DecidableEq, Repr

/-- Holds (is `true`) exactly on element-destruction events. -/
def AllocEvent.isDestroy : AllocEvent → Bool
  | .destroyElem _ => true
  | _ => false

/-- Holds (is `true`) exactly on raw-deallocation events. -/
def AllocEvent.isDealloc : AllocEvent → Bool
  | .deallocate _ => true
  | _ => false

/-- Holds (is `true`) exactly on raw-allocation events. -/
def AllocEvent.isAlloc : AllocEvent → Bool
  | .allocate _ => true
  | _ => false

/-- Error kinds surfaced by checked access (`std::out_of_range` thrown by
`RangeCheck`). -/
inductive ErrKind where
  | outOfRange
deriving DecidableEq, Repr

/-- State of `ArrayOf<T, Alloc>`: `length_` (`size_type length_{}`), the storage
pointer `ptr_` (`T* ptr_{}`, `0` = null), the values held in the storage
region, and the identity of the allocator stored inside the deleter member
`d_`. -/
structure ArrayOf (α : Type) where
  length_ : Nat
  ptr_ : Nat
  store : List α
  alloc : Nat
deriving DecidableEq, Repr

/-- State of `CollectionOf<T, Alloc>`: same fields, but each slot of the storage
region may be unconstructed (`none`). -/
structure CollectionOf (α : Type) where
  length_ : Nat
  ptr_ : Nat
  store : List (Option α)
  alloc : Nat
deriving DecidableEq, Repr

/-! ### std::equal and the equality operators

Both headers define
`operator== = std::equal(lhs.begin(), lhs.end(), rhs.begin())`:
the three-iterator overload, which walks the first range and dereferences
the second range in lockstep.  It never looks at the second range's end:
if the first range is strictly longer and no mismatch stops the walk
first, it reads past the end of the second range (undefined behaviour,
modelled as `none`). -/

/-- Model of `std::equal(first1, last1, first2)` on value lists: compare in
lockstep; a mismatch yields `some false`; exhausting the first range
yields `some true`; needing an element past the second range's end is
undefined behaviour (`none`). -/
def stdEqual {α : Type} [DecidableEq α] : List α → List α → Option Bool
  | [], _ => some true
  | _ :: _, [] => none
  | x :: xs, y :: ys => if x = y then stdEqual xs ys else some false

/-- Model of `operator==(const ArrayOf&, const ArrayOf&)` (array_of.hpp lines
118-122). -/
def ArrayOf.eqOp {α : Type} [DecidableEq α] (lhs rhs : ArrayOf α) : Option Bool :=
  stdEqual lhs.store rhs.store

/-- Model of `operator!=(const ArrayOf&, const ArrayOf&)`: `!(lhs == rhs)`. -/
def ArrayOf.neOp {α : Type} [DecidableEq α] (lhs rhs : ArrayOf α) : Option Bool :=
  (lhs.eqOp rhs).map (fun b => !b)

/-- Model of `operator==(const CollectionOf&, const CollectionOf&)`
(collection_of.hpp lines 140-144). -/
def CollectionOf.eqOp {α : Type} [DecidableEq α] (lhs rhs : CollectionOf α) : Option Bool :=
  stdEqual lhs.store rhs.store

/-! ### ArrayOf constructors

The primary constructor (lines 31-36) stores `length` and the allocator,
calls `d_.alloc.allocate(length_)` and then
`std::uninitialized_fill_n(ptr_, length_, v)`.  On the successful path the
storage region afterwards holds `length` copies of `v`. -/

/-- Model of `ArrayOf(size_type length, const value_type& v, const allocator_type&
alloc)`, successful path.  `pid` is the (nonzero) pointer returned by
`allocate`, `al` the allocator identity. -/
def ArrayOf.ctorMain {α : Type} (length : Nat) (v : α) (al : Nat) (pid : Nat) : ArrayOf α :=
  { length_ := length, ptr_ := pid, store := List.replicate length v, alloc := al }

/-- Model of `ArrayOf(size_type length)` — the primary constructor with both
defaults (`value_type{}` and `allocator_type{}`, the latter modelled as
allocator identity `0`). -/
def ArrayOf.ctorN {α : Type} [Inhabited α] (length : Nat) (pid : Nat) : ArrayOf α :=
  ArrayOf.ctorMain length default 0 pid

/-- Model of `ArrayOf(size_type length, const allocator_type& alloc)` (lines
37-38).  The source delegates as `ArrayOf(length_, value_type{}, alloc)`,
reading the member `length_` before any member of the object has been
initialized: an indeterminate value, modelled by the explicit `garbage`
parameter.  The `length` parameter is accepted but never used — exactly as
in the source. -/
def ArrayOf.ctorNAlloc {α : Type} [Inhabited α] (length : Nat) (al : Nat)
    (garbage : Nat) (pid : Nat) : ArrayOf α :=
  ArrayOf.ctorMain garbage default al pid

/-! ### The constructor's allocator trace when a fill throws

`std::uninitialized_fill_n(ptr_, n, v)` copy-constructs slots `0, 1, ...`
in order; if the copy constructor of slot `k` throws, it destroys the `k`
already-constructed slots (the standard leaves the order unspecified; the
trace records them in index order) and rethrows.  The `ArrayOf`
constructor body has no try/catch, and a destructor never runs for an
object whose constructor threw, so nothing further happens after the
rethrow. -/

/-- Events of `std::uninitialized_fill_n(ptr_, n, v)` when the copy
construction of slot `failAt` throws (no throw when `failAt` is `none` or
`≥ n`).  Second component: whether an exception propagates. -/
def fillNEvents (n : Nat) (failAt : Option Nat) : List AllocEvent × Bool :=
  match failAt with
  | none => ((List.range n).map AllocEvent.constructElem, false)
  | some k =>
    if k < n then
      ((List.range k).map AllocEvent.constructElem ++
        (List.range k).map AllocEvent.destroyElem, true)
    else
      ((List.range n).map AllocEvent.constructElem, false)

/-- Allocator/element trace of the primary `ArrayOf` constructor:
`allocate(length_)`, then the fill; if the fill throws, the exception
propagates to the caller with no further cleanup (the constructor has no
handler and the destructor does not run). -/
def ArrayOf.ctorTrace (n : Nat) (failAt : Option Nat) : List AllocEvent × Bool :=
  let fe := fillNEvents n failAt
  (AllocEvent.allocate n :: fe.1, fe.2)

/-! ### ArrayOf element access -/

/-- Model of `RangeCheck(n)` (lines 100-104): throws `std::out_of_range` iff
`n >= length_`. -/
def ArrayOf.RangeCheck {α : Type} (a : ArrayOf α) (n : Nat) : Except ErrKind Unit :=
  if n ≥ a.length_ then Except.error ErrKind.outOfRange else Except.ok ()

/-- Model of `operator[](n)`: the reference `ptr_[n]`, modelled as the slot
location (storage identity, index). -/
def ArrayOf.idxOp {α : Type} (a : ArrayOf α) (n : Nat) : Nat × Nat :=
  (a.ptr_, n)

/-- Model of `at(n)` (lines 59-66): `RangeCheck(n); return ptr_[n];`.  Returns the
outcome together with the (unmodified) container state after the call. -/
def ArrayOf.atOp {α : Type} (a : ArrayOf α) (n : Nat) :
    Except ErrKind (Nat × Nat) × ArrayOf α :=
  match a.RangeCheck n with
  | Except.error e => (Except.error e, a)
  | Except.ok _ => (Except.ok (a.idxOp n), a)

/-! ### ArrayOf fill, swap, move, destructor -/

/-- Model of `fill(v)` (lines 92-94): `std::uninitialized_fill_n(ptr_, length_, v)`
— value-wise, the whole region afterwards holds `length_` copies of `v`. -/
def ArrayOf.fill {α : Type} (a : ArrayOf α) (v : α) : ArrayOf α :=
  { a with store := List.replicate a.length_ v }

/-- Model of `swap(ArrayOf&& other)` (lines 95-97):
`std::swap_ranges(begin(), end(), other.begin())` exchanges the first
`length_` element values of the two regions position-wise.  Undefined
behaviour (`none`) when `other`'s region is shorter than `*this`'s. -/
def ArrayOf.swapOp {α : Type} (a b : ArrayOf α) : Option (ArrayOf α × ArrayOf α) :=
  if a.length_ ≤ b.length_ then
    some ({ a with store := b.store.take a.length_ },
          { b with store := a.store.take a.length_ ++ b.store.drop a.length_ })
  else
    none

/-- Model of `operator=(ArrayOf&& other)` (lines 49-54): swaps `length_` and
`ptr_` with `other` (the stored values travel with the pointer), then
rebuilds this object's deleter from `other`'s allocator
(`d_ = Deleter(other.d_.alloc)`); `other`'s own deleter is untouched.
Result: (new destination state, new source state). -/
def ArrayOf.moveAssign {α : Type} (dst src : ArrayOf α) : ArrayOf α × ArrayOf α :=
  ({ length_ := src.length_, ptr_ := src.ptr_, store := src.store, alloc := src.alloc },
   { length_ := dst.length_, ptr_ := dst.ptr_, store := dst.store, alloc := src.alloc })

/-- Modelled from the spec: `ArrayOf(ArrayOf&& other)` (lines 44-48) as
intended.  The source member initializers give the fresh object
`length_ = 0` and `ptr_ = nullptr`; the body swaps both with `other` and
sets `d_ = Deleter(other.d_.alloc)`.  As written the constructor is
ill-formed C++ — the member `d_` is left to be default-initialized and
`Deleter` has no default constructor — so this definition models the
evident intent of the swap-based body.  Result: (new object, moved-from
source). -/
def ArrayOf.moveCtor {α : Type} (src : ArrayOf α) : ArrayOf α × ArrayOf α :=
  ({ length_ := src.length_, ptr_ := src.ptr_, store := src.store, alloc := src.alloc },
   { length_ := 0, ptr_ := 0, store := [], alloc := src.alloc })

/-- Model of `~ArrayOf()` (line 55): `d_(ptr_, length_)`, and `Deleter::operator()`
(lines 107-109) deallocates only when the pointer is non-null.  No
per-element destruction is ever performed. -/
def ArrayOf.dtorEvents {α : Type} (a : ArrayOf α) : List AllocEvent :=
  if a.ptr_ ≠ 0 then [AllocEvent.deallocate a.length_] else []

/-! ### CollectionOf -/

/-- Model of `CollectionOf(size_type length, const allocator_type& alloc)`
(lines 29-33): stores `length` and the allocator and allocates `length`
raw slots; no element is constructed (`Allocated` state: every slot
`none`).  `pid` is the pointer returned by `allocate`. -/
def CollectionOf.ctor {α : Type} (length : Nat) (al : Nat) (pid : Nat) : CollectionOf α :=
  { length_ := length, ptr_ := pid, store := List.replicate length none, alloc := al }

/-- Model of `construct(Args&&... args)` (lines 114-119): for each
`i in [0, length_)` in order, `::new (ptr_ + i) T(args...)`.  `mkT`
models the element type's constructor, `args` the forwarded argument
set; every iteration applies the same constructor to the same argument
set. -/
def CollectionOf.construct {α β : Type} (c : CollectionOf α) (mkT : β → α) (args : β) :
    CollectionOf α :=
  { c with
    store := (List.range c.length_).foldl (fun s i => s.set i (some (mkT args))) c.store }

/-- Element-construction trace of `construct`: one construction per slot,
in index order. -/
def CollectionOf.constructEvents {α : Type} (c : CollectionOf α) : List AllocEvent :=
  (List.range c.length_).map AllocEvent.constructElem

/-- Modelled from the spec: `~CollectionOf()` (lines 37-42) as intended.
The source body is
`for (i = 0; i < n; ++i) ptr[i].~T();  d_(ptr_, length_);`
but no identifiers `n` and `ptr` are in scope (the members are `length_`
and `ptr_`), so the destructor does not compile; the model uses the
evident intended members: destroy the element of every slot in index
order, then hand `(ptr_, length_)` to the deleter, which deallocates
unconditionally. -/
def CollectionOf.dtorEvents {α : Type} (c : CollectionOf α) : List AllocEvent :=
  (List.range c.length_).map AllocEvent.destroyElem ++ [AllocEvent.deallocate c.length_]

/-- Model of `RangeCheck(n)` (collection_of.hpp lines 122-126): throws
`std::out_of_range` iff `n >= length_`. -/
def CollectionOf.RangeCheck {α : Type} (c : CollectionOf α) (n : Nat) : Except ErrKind Unit :=
  if n ≥ c.length_ then Except.error ErrKind.outOfRange else Except.ok ()

/-- Model of `operator[](n)`: the reference `ptr_[n]`, as a slot location. -/
def CollectionOf.idxOp {α : Type} (c : CollectionOf α) (n : Nat) : Nat × Nat :=
  (c.ptr_, n)

/-- Model of `at(n)` (lines 46-53): `RangeCheck(n); return ptr_[n];`, with the
(unmodified) container state after the call. -/
def CollectionOf.atOp {α : Type} (c : CollectionOf α) (n : Nat) :
    Except ErrKind (Nat × Nat) × CollectionOf α :=
  match c.RangeCheck n with
  | Except.error e => (Except.error e, c)
  | Except.ok _ => (Except.ok (c.idxOp n), c)

/-! ### Helper lemmas about the `construct` loop and event counts -/

/-- Writing values into slots never changes the length of the storage
region. -/
theorem foldl_set_length {γ : Type} (x : γ) (l : List Nat) :
    ∀ (s : List γ), (l.foldl (fun t i => t.set i x) s).length = s.length := by
  induction l with
  | nil => intro s; rfl
  | cons i l ih => intro s; rw [List.foldl_cons, ih, List.length_set]

/-- Slot contents after the write loop: a slot whose index occurs in the
loop's index list holds the written value; other slots are untouched. -/
theorem foldl_set_getElem {γ : Type} (x : γ) (l : List Nat) :
    ∀ (s : List γ) (j : Nat),
      (l.foldl (fun t i => t.set i x) s)[j]? =
        if j ∈ l ∧ j < s.length then some x else s[j]? := by
  induction l with
  | nil => intro s j; simp
  | cons i l ih =>
    intro s j
    rw [List.foldl_cons, ih, List.length_set, List.getElem?_set]
    by_cases hij : i = j
    · subst hij
      by_cases hlt : i < s.length
      · simp [hlt, List.mem_cons]
      · have hnone : s[i]? = none := List.getElem?_eq_none (by omega)
        simp [hlt, hnone]
    · have hji : ¬j = i := fun hh => hij hh.symm
      rw [if_neg hij]
      simp [List.mem_cons, hji]

/-- Counting the destruction events among one destruction per index. -/
theorem countP_destroy_range (n : Nat) :
    ((List.range n).map AllocEvent.destroyElem).countP AllocEvent.isDestroy = n := by
  rw [List.countP_map]
  have h : List.countP (AllocEvent.isDestroy ∘ AllocEvent.destroyElem) (List.range n) =
      (List.range n).length :=
    List.countP_eq_length.mpr (fun a _ => rfl)
  rw [h, List.length_range]

/-! ### Claim theorems -/

/-- C1: the claim fails on the code.  `operator==` is
`std::equal(lhs.begin(), lhs.end(), rhs.begin())` and never compares
lengths: for `a = ArrayOf(3, 5)` and `b = ArrayOf(4, 5)` (different
lengths, every slot `5`), `a == b` evaluates to `true` and `a != b` to
`false`, and the same holds for `CollectionOf` containers of lengths 3
and 4 constructed with the same value — where the claim requires
containers of different lengths never to compare equal. -/
theorem arrayOf_eqOp_ignores_length :
    ArrayOf.eqOp (ArrayOf.ctorMain 3 (5 : Nat) 0 1) (ArrayOf.ctorMain 4 5 0 2) = some true
    ∧ ArrayOf.neOp (ArrayOf.ctorMain 3 (5 : Nat) 0 1) (ArrayOf.ctorMain 4 5 0 2) = some false
    ∧ (ArrayOf.ctorMain 3 (5 : Nat) 0 1).length_ ≠ (ArrayOf.ctorMain 4 (5 : Nat) 0 2).length_
    ∧ CollectionOf.eqOp ((CollectionOf.ctor 3 0 1).construct id (5 : Nat))
        ((CollectionOf.ctor 4 0 2).construct id 5) = some true := by
  decide

/-- C2: the claim fails on the code.  When the value-initialization of
slot 1 of 2 throws, `std::uninitialized_fill_n` destroys the one slot it
already constructed, but the constructor re-raises with no handler and
the destructor of the partially-constructed object never runs: the trace
of the failing construction contains the `allocate` call and no
`deallocate` call at all — the raw storage is leaked, where the claim
says it is released before the exception propagates. -/
theorem arrayOf_ctor_leak_on_partial_fill :
    ArrayOf.ctorTrace 2 (some 1) =
      ([AllocEvent.allocate 2, AllocEvent.constructElem 0, AllocEvent.destroyElem 0], true)
    ∧ (ArrayOf.ctorTrace 2 (some 1)).1.countP AllocEvent.isAlloc = 1
    ∧ (ArrayOf.ctorTrace 2 (some 1)).1.countP AllocEvent.isDealloc = 0 := by
  decide

/-- C3: the claim fails on the code.  The `(length, alloc)` constructor
overload delegates on the not-yet-initialized member `length_` instead of
its `length` parameter, so the built container's length is the
indeterminate `garbage` value, independent of the requested length: for
every two requested lengths the overload builds identical containers, and
with `garbage = 0` a request for length 3 yields `length() = 0`.  (The
primary overload, by contrast, honours its arguments.) -/
theorem arrayOf_ctorNAlloc_ignores_requested_length :
    (∀ n m al garbage pid : Nat,
        (ArrayOf.ctorNAlloc n al garbage pid : ArrayOf Nat) =
          ArrayOf.ctorNAlloc m al garbage pid)
    ∧ (ArrayOf.ctorNAlloc 3 0 0 1 : ArrayOf Nat).length_ = 0
    ∧ (∀ n al pid : Nat, ∀ v : Nat,
        (ArrayOf.ctorMain n v al pid).length_ = n
        ∧ (ArrayOf.ctorMain n v al pid).store = List.replicate n v) := by
  exact ⟨fun _ _ _ _ _ => rfl, rfl, fun _ _ _ _ => ⟨rfl, rfl⟩⟩

/-- C4: on the modelled intended destructor (the source body names the
undeclared identifiers `n` and `ptr` and does not compile), destroying a
`CollectionOf` of length `n` destroys exactly the `n` slots, in index
order (slot 0 first), followed by exactly one deallocation, and the
number of destructions equals the number of constructions `construct`
performed. -/
theorem collectionOf_dtor_destroys_in_order (n al pid : Nat) :
    (CollectionOf.ctor n al pid : CollectionOf Nat).dtorEvents =
      (List.range n).map AllocEvent.destroyElem ++ [AllocEvent.deallocate n]
    ∧ (CollectionOf.ctor n al pid : CollectionOf Nat).dtorEvents.countP
        AllocEvent.isDestroy = n
    ∧ (CollectionOf.ctor n al pid : CollectionOf Nat).dtorEvents.countP
        AllocEvent.isDealloc = 1
    ∧ (CollectionOf.ctor n al pid : CollectionOf Nat).constructEvents.length = n := by
  refine ⟨rfl, ?_, ?_, ?_⟩
  · show ((List.range n).map AllocEvent.destroyElem ++
        [AllocEvent.deallocate n]).countP AllocEvent.isDestroy = n
    rw [List.countP_append, countP_destroy_range]
    rfl
  · show ((List.range n).map AllocEvent.destroyElem ++
        [AllocEvent.deallocate n]).countP AllocEvent.isDealloc = 1
    rw [List.countP_append, List.countP_map]
    have h : List.countP (AllocEvent.isDealloc ∘ AllocEvent.destroyElem)
        (List.range n) = 0 :=
      List.countP_eq_zero.mpr (fun a _ hh => by simp [Function.comp,
        AllocEvent.isDealloc] at hh)
    rw [h]
    rfl
  · show ((List.range n).map AllocEvent.constructElem).length = n
    rw [List.length_map, List.length_range]

/-- C5: calling `construct(args...)` on a freshly allocated
`CollectionOf` of length `n` leaves `length()` equal to `n` and puts the
value `T(args...)` (here `mkT args`) into every one of the `n` slots. -/
theorem collectionOf_construct_fills_every_slot {α β : Type} (mkT : β → α) (args : β)
    (n al pid j : Nat) (hj : j < n) :
    ((CollectionOf.ctor n al pid).construct mkT args).length_ = n
    ∧ ((CollectionOf.ctor n al pid).construct mkT args).store.length = n
    ∧ ((CollectionOf.ctor n al pid).construct mkT args).store[j]? =
        some (some (mkT args)) := by
  refine ⟨rfl, ?_, ?_⟩
  · show ((List.range n).foldl (fun s i => s.set i (some (mkT args)))
        (List.replicate n none)).length = n
    rw [foldl_set_length, List.length_replicate]
  · show ((List.range n).foldl (fun s i => s.set i (some (mkT args)))
        (List.replicate n none))[j]? = some (some (mkT args))
    rw [foldl_set_getElem]
    simp [List.mem_range, hj]

/-- Witness for C5 at `n = 3`, `args = 41`, `T`'s constructor adding one,
slot `j = 1`. -/
theorem collectionOf_construct_fills_every_slot_witness :
    ((CollectionOf.ctor 3 0 1).construct (fun k : Nat => k + 1) 41).store[1]? =
      some (some 42) :=
  (collectionOf_construct_fills_every_slot (fun k : Nat => k + 1) 41 3 0 1 1
    (by decide)).2.2

/-- C6: on the model, move-assignment hands the source's storage pointer,
length, element values and allocator to the destination and leaves the
source holding the destination's former storage, pointer and length; the
(intended) move construction — ill-formed in the source because the
member `d_` is left to be default-initialized and `Deleter` has no
default constructor — hands everything to the new object and leaves the
source owning nothing (`length_ = 0`, null pointer). -/
theorem arrayOf_move_transfers_ownership {α : Type} (dst src : ArrayOf α) :
    (ArrayOf.moveAssign dst src).1.length_ = src.length_
    ∧ (ArrayOf.moveAssign dst src).1.ptr_ = src.ptr_
    ∧ (ArrayOf.moveAssign dst src).1.store = src.store
    ∧ (ArrayOf.moveAssign dst src).2.length_ = dst.length_
    ∧ (ArrayOf.moveAssign dst src).2.ptr_ = dst.ptr_
    ∧ (ArrayOf.moveAssign dst src).2.store = dst.store
    ∧ (ArrayOf.moveCtor src).1.length_ = src.length_
    ∧ (ArrayOf.moveCtor src).1.ptr_ = src.ptr_
    ∧ (ArrayOf.moveCtor src).1.store = src.store
    ∧ (ArrayOf.moveCtor src).2.length_ = 0
    ∧ (ArrayOf.moveCtor src).2.ptr_ = 0 :=
  ⟨rfl, rfl, rfl, rfl, rfl, rfl, rfl, rfl, rfl, rfl, rfl⟩

/-- C7: swapping two equal-length arrays exchanges the element values
position-wise while each side keeps its own length and storage pointer
(`data()`), as the explicit result structures show. -/
theorem arrayOf_swap_exchanges_values {α : Type} (a b : ArrayOf α)
    (ha : a.store.length = a.length_) (hb : b.store.length = b.length_)
    (h : a.length_ = b.length_) :
    ArrayOf.swapOp a b =
      some (⟨a.length_, a.ptr_, b.store, a.alloc⟩, ⟨b.length_, b.ptr_, a.store, b.alloc⟩) := by
  unfold ArrayOf.swapOp
  rw [if_pos (le_of_eq h)]
  have h1 : b.store.take a.length_ = b.store := List.take_of_length_le (by omega)
  have h2 : a.store.take a.length_ = a.store := List.take_of_length_le (by omega)
  have h3 : b.store.drop a.length_ = [] := List.drop_eq_nil_of_le (by omega)
  rw [h1, h2, h3, List.append_nil]

/-- Witness for C7: the spec's scenario, `a = [1,2,3]` and `b = [9,8,7]`,
with distinct storage pointers 10 and 20 that stay put. -/
theorem arrayOf_swap_exchanges_values_witness :
    ArrayOf.swapOp (⟨3, 10, [1, 2, 3], 0⟩ : ArrayOf Nat) ⟨3, 20, [9, 8, 7], 0⟩ =
      some (⟨3, 10, [9, 8, 7], 0⟩, ⟨3, 20, [1, 2, 3], 0⟩) :=
  arrayOf_swap_exchanges_values ⟨3, 10, [1, 2, 3], 0⟩ ⟨3, 20, [9, 8, 7], 0⟩ rfl rfl rfl

/-- C8: for both containers, checked access `at(n)` signals `OutOfRange`
exactly when `n ≥ length()`, leaves the container state unchanged either
way, and on success yields the very slot `operator[](n)` designates. -/
theorem checked_access_out_of_range {α : Type} (a : ArrayOf α) (c : CollectionOf α)
    (n m : Nat) :
    ((a.atOp n).1 = Except.error ErrKind.outOfRange ↔ a.length_ ≤ n)
    ∧ (a.atOp n).2 = a
    ∧ (n < a.length_ → (a.atOp n).1 = Except.ok (a.idxOp n))
    ∧ ((c.atOp m).1 = Except.error ErrKind.outOfRange ↔ c.length_ ≤ m)
    ∧ (c.atOp m).2 = c
    ∧ (m < c.length_ → (c.atOp m).1 = Except.ok (c.idxOp m)) := by
  unfold ArrayOf.atOp ArrayOf.RangeCheck CollectionOf.atOp CollectionOf.RangeCheck
  refine ⟨?_, ?_, ?_, ?_, ?_, ?_⟩
  · by_cases h : a.length_ ≤ n <;> simp [ge_iff_le, h]
  · by_cases h : a.length_ ≤ n <;> simp [ge_iff_le, h]
  · intro h
    rw [if_neg (by omega)]
  · by_cases h : c.length_ ≤ m <;> simp [ge_iff_le, h]
  · by_cases h : c.length_ ≤ m <;> simp [ge_iff_le, h]
  · intro h
    rw [if_neg (by omega)]

/-- Witness for C8: in-range access at index 1 of a 3-element `ArrayOf`
succeeds with the `operator[]` slot, and index 5 of a 2-slot
`CollectionOf` signals `OutOfRange`. -/
theorem checked_access_out_of_range_witness :
    ((⟨3, 1, [1, 2, 3], 0⟩ : ArrayOf Nat).atOp 1).1 =
      Except.ok ((⟨3, 1, [1, 2, 3], 0⟩ : ArrayOf Nat).idxOp 1)
    ∧ ((CollectionOf.ctor 2 0 1 : CollectionOf Nat).atOp 5).1 =
        Except.error ErrKind.outOfRange :=
  ⟨(checked_access_out_of_range ⟨3, 1, [1, 2, 3], 0⟩ (CollectionOf.ctor 2 0 1) 1 5).2.2.1
      (by decide),
    ((checked_access_out_of_range (⟨3, 1, [1, 2, 3], 0⟩ : ArrayOf Nat)
        (CollectionOf.ctor 2 0 1) 1 5).2.2.2.1).mpr (by decide)⟩

/-- C9, counterexample: move-assigning from an array constructed with
length 3 into one constructed with length 2 leaves the source with
`length() = 2` and the destination with `length() = 3` — both differ from
the length supplied at their construction, contradicting the claim that
being the source or destination of a move leaves `length()` at its
construction value. -/
theorem arrayOf_move_changes_length :
    ((ArrayOf.moveAssign (ArrayOf.ctorMain 2 (0 : Nat) 0 1)
        (ArrayOf.ctorMain 3 0 0 2)).2).length_ ≠ 3
    ∧ ((ArrayOf.moveAssign (ArrayOf.ctorMain 2 (0 : Nat) 0 1)
        (ArrayOf.ctorMain 3 0 0 2)).1).length_ ≠ 2 := by
  decide

/-- C9, amended: every operation other than destruction and moves —
`fill`, `swap`, `at`, `operator[]`, iteration, equality, `construct` —
leaves `length()` unchanged, while a move-assignment exchanges the two
containers' lengths (the destination takes the source's length and the
source is left with the destination's former length). -/
theorem length_stable_except_moves {α β : Type} (a b : ArrayOf α) (c : CollectionOf α)
    (v : α) (n m : Nat) (mkT : β → α) (args : β) :
    (a.fill v).length_ = a.length_
    ∧ ((a.atOp n).2).length_ = a.length_
    ∧ ((c.atOp m).2).length_ = c.length_
    ∧ (ArrayOf.swapOp a b).map (fun p => (p.1.length_, p.2.length_)) =
        (ArrayOf.swapOp a b).map (fun _ => (a.length_, b.length_))
    ∧ (c.construct mkT args).length_ = c.length_
    ∧ (ArrayOf.moveAssign a b).1.length_ = b.length_
    ∧ (ArrayOf.moveAssign a b).2.length_ = a.length_ := by
  refine ⟨rfl, ?_, ?_, ?_, rfl, rfl, rfl⟩
  · unfold ArrayOf.atOp
    cases a.RangeCheck n <;> rfl
  · unfold CollectionOf.atOp
    cases c.RangeCheck m <;> rfl
  · unfold ArrayOf.swapOp
    by_cases h : a.length_ ≤ b.length_ <;> simp [h]

/-- C10: on the modelled intended move construction (ill-formed in the
source, see C6), the moved-from array has `length() = 0` and a null
storage pointer, and destroying it is a complete no-op: the deleter's
null-pointer guard suppresses the deallocation, and an `ArrayOf`
destructor never performs per-element work in the first place. -/
theorem arrayOf_moved_from_dtor_noop {α : Type} (src : ArrayOf α) :
    (ArrayOf.moveCtor src).2.length_ = 0
    ∧ (ArrayOf.moveCtor src).2.ptr_ = 0
    ∧ ArrayOf.dtorEvents (ArrayOf.moveCtor src).2 = []
    ∧ (∀ a : ArrayOf α, (ArrayOf.dtorEvents a).countP AllocEvent.isDestroy = 0) := by
  refine ⟨rfl, rfl, ?_, ?_⟩
  · unfold ArrayOf.dtorEvents ArrayOf.moveCtor
    simp
  · intro a
    unfold ArrayOf.dtorEvents
    by_cases h : a.ptr_ ≠ 0 <;> simp [h, AllocEvent.isDestroy]
